import Mathlib

/-!
Verification development for the e13ocrbot repository
(`bot.py`, the Telegram OCR relay, and `refresh_qwen_token.py`, the
OAuth token refresher).  Python values that matter to the verified
properties (JSON objects, strings, integers) are embedded shallowly:
JSON values become the inductive `JVal`, Python strings become Lean
`String` (both measure length in Unicode code points), millisecond
timestamps become `Int`, and the fallible control flow of each script
becomes a total Lean function returning an explicit outcome.
-/

namespace E13

/-- A JSON value as far as the two scripts inspect one: `null`, strings,
integers and objects (association lists, first binding wins on lookup,
mirroring a Python `dict` whose keys are unique). -/
inductive JVal where
  | null : JVal
  | str : String → JVal
  | num : Int → JVal
  | obj : List (String × JVal) → JVal

/-- `d.get(key)` on a Python dict represented as an association list. -/
def jget : List (String × JVal) → String → Option JVal
  | [], _ => none
  | (k, v) :: t, key => if k = key then some v else jget t key

/-- Python truthiness of `d.get(key)`: `None` (missing key or JSON null),
`0`, the empty string and the empty object are falsy. -/
def truthy : Option JVal → Bool
  | none => false
  | some JVal.null => false
  | some (JVal.str s) => if s = "" then false else true
  | some (JVal.num n) => if n = 0 then false else true
  | some (JVal.obj []) => false
  | some (JVal.obj (_ :: _)) => true

/-- `needle` is a prefix of `hay`, on code-point lists
(Python `hay.startswith(needle)`). -/
def startsWithL : List Char → List Char → Bool
  | [], _ => true
  | _ :: _, [] => false
  | a :: as, b :: bs => if a = b then startsWithL as bs else false

/-- `needle in hay` on code-point lists (Python substring test). -/
def hasSubL (needle : List Char) : List Char → Bool
  | [] => startsWithL needle []
  | c :: t => startsWithL needle (c :: t) || hasSubL needle t

/-! ### refresh_qwen_token.py -/

/-- The credential store file: its JSON contents (already parsed, as the
script's `load_creds` returns them) and its POSIX permission bits. -/
structure FileState where
  contents : List (String × JVal)
  mode : Nat

/-- `save_creds` (refresh_qwen_token.py:47-53): overwrite the store with
`creds`, then `os.chmod(CREDS_PATH, 0o600)`. -/
def save_creds (creds : List (String × JVal)) : FileState :=
  { contents := creds, mode := 0o600 }

/-- `token_needs_refresh` (refresh_qwen_token.py:56-74).
`creds.get("expiry_date")` falsy → `True`; otherwise the script computes
`remaining_sec = (expiry_date - now_ms) / 1000` (exact real division by
1000) and returns `remaining_sec <= 7200`, i.e.
`expiry_date - now_ms <= 7200000`.  A truthy non-integer `expiry_date`
makes the subtraction raise `TypeError` (uncaught), modelled as `none`. -/
def token_needs_refresh (creds : List (String × JVal)) (now_ms : Int) : Option Bool :=
  let expiry_date := jget creds "expiry_date"
  if truthy expiry_date = false then some true
  else
    match expiry_date with
    | some (JVal.num e) => some (decide (e - now_ms ≤ 7200000))
    | _ => none

/-- The outcome of the HTTP exchange performed by `refresh_token`
(refresh_qwen_token.py:101-103): `urllib.request.urlopen` raises
`HTTPError` (carrying status code and error body) on an HTTP error
status, raises `URLError` on a network failure, and otherwise yields the
response's `Content-Type` header and decoded body. -/
inductive HttpResult where
  | httpError : Nat → String → HttpResult
  | urlError : String → HttpResult
  | ok : String → String → HttpResult

/-- How a `refresh_token` invocation fails (each constructor is one
`sys.exit(1)` site, or the uncaught `AttributeError` when the parsed
body is not a dict). -/
inductive RefreshError where
  | httpErr : Nat → String → RefreshError
  | netErr : String → RefreshError
  | wafHtml : RefreshError
  | emptyBody : RefreshError
  | badJson : RefreshError
  | attrCrash : RefreshError
  | badStatus : RefreshError

/-- The extra log hint printed with a `refresh_token` failure
(refresh_qwen_token.py:108, 114, 122): the WAF-blockage hint for an HTML
body, and re-authorization hints for an empty body or HTTP 400/401. -/
def refreshLogHint : RefreshError → Option String
  | RefreshError.wafHtml =>
      some "ОШИБКА: API вернул HTML вместо JSON (вероятно WAF-блокировка)"
  | RefreshError.emptyBody =>
      some "⚠️ refresh_token, вероятно, недействителен. Выполните: qwen"
  | RefreshError.httpErr code _ =>
      if code = 400 ∨ code = 401 then
        some "⚠️ refresh_token недействителен. Выполните: qwen"
      else none
  | _ => none

/-- `refresh_token` (refresh_qwen_token.py:77-136), given the HTTP
outcome and `json.loads` as an abstract parser `parse` (so that a result
independent of `parse` is one reached without parsing the body).
Checks run in source order: `HTTPError` / `URLError` abort; then
`"text/html" in content_type` aborts with the WAF hint; then an empty
(whitespace-only) body aborts; then the body is parsed (`None` models
`json.JSONDecodeError`); finally `body.get("status") != "success"`
aborts (`attrCrash` models the uncaught `AttributeError` when
`json.loads` returns a non-dict). -/
def refresh_token (parse : String → Option JVal) : HttpResult → Except RefreshError (List (String × JVal))
  | HttpResult.httpError code body => Except.error (RefreshError.httpErr code body)
  | HttpResult.urlError reason => Except.error (RefreshError.netErr reason)
  | HttpResult.ok content_type raw =>
    if hasSubL "text/html".data content_type.data then
      Except.error RefreshError.wafHtml
    else if raw.data.all (fun c => c.isWhitespace) then
      Except.error RefreshError.emptyBody
    else
      match parse raw with
      | none => Except.error RefreshError.badJson
      | some (JVal.obj body) =>
        match jget body "status" with
        | some (JVal.str s) =>
          if s = "success" then Except.ok body else Except.error RefreshError.badStatus
        | _ => Except.error RefreshError.badStatus
      | some _ => Except.error RefreshError.attrCrash

/-- How one refresher invocation ends: `exitFail` is any `sys.exit(1)`
or uncaught exception (process exit status non-zero), `okNoWrite` is the
early `return` when the token is still fresh (exit 0, no write),
`okWrite` is the successful path through `save_creds` (exit 0). -/
inductive MainResult where
  | exitFail : MainResult
  | okNoWrite : MainResult
  | okWrite : MainResult
deriving DecidableEq

/-- The tail of `main` (refresh_qwen_token.py:153-167) once the refresh
exchange is reached: classify the response; on success build `new_creds`
exactly as the script's dict literal does (`result["access_token"]`,
`result.get("token_type", "Bearer")`, `result["refresh_token"]`,
`result.get("resource_url", "portal.qwen.ai")`,
`expiry_date = int(time.time()*1000) + result["expires_in"]*1000` with
`now2` the second clock reading) and write it with `save_creds`.  A
missing mandatory key (`KeyError`) or a non-integer `expires_in`
(`TypeError`) is an uncaught exception: `exitFail`, no write. -/
def refreshExchange (store : FileState) (parse : String → Option JVal)
    (res : HttpResult) (now2 : Int) : MainResult × FileState :=
  match refresh_token parse res with
  | Except.error _ => (MainResult.exitFail, store)
  | Except.ok result =>
    match jget result "access_token", jget result "refresh_token",
          jget result "expires_in" with
    | some a, some r, some (JVal.num expires_in) =>
      let new_creds : List (String × JVal) :=
        [("access_token", a),
         ("token_type", (jget result "token_type").getD (JVal.str "Bearer")),
         ("refresh_token", r),
         ("resource_url", (jget result "resource_url").getD (JVal.str "portal.qwen.ai")),
         ("expiry_date", JVal.num (now2 + expires_in * 1000))]
      (MainResult.okWrite, save_creds new_creds)
    | _, _, _ => (MainResult.exitFail, store)

/-- `main` (refresh_qwen_token.py:139-167), after `load_creds` has read
the store.  `now1` is the clock reading used by `token_needs_refresh`,
`now2` the later one used for the new `expiry_date`.  If the token does
not need a refresh, return with exit 0 and no write; if
`creds.get("refresh_token")` is falsy, exit 1; otherwise perform the
refresh exchange. -/
def main (store : FileState) (parse : String → Option JVal) (res : HttpResult)
    (now1 now2 : Int) : MainResult × FileState :=
  match token_needs_refresh store.contents now1 with
  | none => (MainResult.exitFail, store)
  | some false => (MainResult.okNoWrite, store)
  | some true =>
    if truthy (jget store.contents "refresh_token") then
      refreshExchange store parse res now2
    else (MainResult.exitFail, store)

/-! ### bot.py -/

/-- One observable transport action of the bot: `reply_text` on the
user's message, or `edit_text` on the placeholder message. -/
inductive BotAction where
  | sendMessage : String → BotAction
  | editMessage : String → BotAction
deriving DecidableEq

/-- Where the body of `_process_image`'s `try` block fails, if it does
(bot.py:256-265 together with `get_qwen_token` and `call_vision_api`):
credential file missing / unparsable / empty `access_token`, HTTP
timeout, network error, HTTP error status, or unexpected response
shape. -/
inductive VisionFailure where
  | credMissing : VisionFailure
  | credBadJson : VisionFailure
  | credEmpty : VisionFailure
  | httpTimeout : VisionFailure
  | netError : VisionFailure
  | httpStatus : Nat → VisionFailure
  | shapeError : VisionFailure
deriving DecidableEq

/-- Which of `_process_image`'s `except` clauses (bot.py:283-315) an
exception reaches, by Python's class hierarchy. -/
inductive PyExc where
  | timeoutException : PyExc
  | httpStatusError : Nat → PyExc
  | valueError : PyExc
  | otherExc : PyExc
deriving DecidableEq

/-- The exception each failure raises, mapped to the `except` clause
that catches it:
`credMissing` raises `FileNotFoundError` (an `OSError`), caught only by
`except Exception`; `credBadJson` raises `json.JSONDecodeError`, a
subclass of `ValueError`; `credEmpty` is the explicit
`raise ValueError(...)` at bot.py:96; `shapeError` is the explicit
`raise ValueError(...)` at bot.py:162; `netError` raises an
`httpx.RequestError` that is neither a timeout nor a status error. -/
def raisedExc : VisionFailure → PyExc
  | VisionFailure.credMissing => PyExc.otherExc
  | VisionFailure.credBadJson => PyExc.valueError
  | VisionFailure.credEmpty => PyExc.valueError
  | VisionFailure.httpTimeout => PyExc.timeoutException
  | VisionFailure.netError => PyExc.otherExc
  | VisionFailure.httpStatus c => PyExc.httpStatusError c
  | VisionFailure.shapeError => PyExc.valueError

/-- The status-code dispatch of `_process_image` (bot.py:294-301). -/
def httpErrorMsg (status_code : Nat) : String :=
  if status_code = 401 then "🔑 Ошибка авторизации. Проверьте токен API."
  else if status_code = 429 then "🚦 Превышен лимит запросов. Попробуйте позже."
  else if 500 ≤ status_code then "🔧 Сервер временно недоступен. Попробуйте позже."
  else "❌ Ошибка сервера (код " ++ toString status_code ++ "). Попробуйте позже."

/-- The message each `except` clause edits into the placeholder
(bot.py:283-315). -/
def classifyExc : PyExc → String
  | PyExc.timeoutException =>
      "⏱ Превышено время ожидания ответа от сервера. Попробуйте ещё раз позже."
  | PyExc.httpStatusError c => httpErrorMsg c
  | PyExc.valueError =>
      "❌ Не удалось обработать ответ от сервера. Попробуйте ещё раз."
  | PyExc.otherExc =>
      "❌ Произошла непредвиденная ошибка. Попробуйте позже."

/-- The chunking loop of `_process_image` (bot.py:279-281):
`for i in range(0, len(result_text), 4000): result_text[i : i + 4000]`,
on the code-point list of `result_text`. -/
def pychunks : List Char → List (List Char)
  | [] => []
  | c :: t => ((c :: t).take 4000) :: pychunks ((c :: t).drop 4000)
termination_by l => l.length
decreasing_by
  simp [List.length_drop]
  omega

/-- `_process_image` (bot.py:240-315) as the list of transport actions
it performs, given where (or whether) its `try` body failed.  First the
placeholder is sent; on success the reply `"📝 *Текст:*\n\n" + text` is
edited in whole if its length is at most 4096, else the placeholder
becomes a short notice and the chunks are sent in order; on failure the
placeholder is edited to the message of the `except` clause reached. -/
def process_image (r : Except VisionFailure String) : List BotAction :=
  BotAction.sendMessage "⏳ Обрабатываю..." ::
  match r with
  | Except.error f => [BotAction.editMessage (classifyExc (raisedExc f))]
  | Except.ok result_text =>
    let reply := "📝 *Текст:*\n\n" ++ result_text
    if reply.length ≤ 4096 then [BotAction.editMessage reply]
    else
      BotAction.editMessage "📝 *Текст (разбит на части из-за длины):*" ::
      (pychunks result_text.data).map (fun chunk => BotAction.sendMessage (String.mk chunk))

/-- The MIME gate of `handle_document` (bot.py:227-237):
`not mime or not mime.startswith("image/")` rejects. -/
def mimeIsImage : Option String → Bool
  | none => false
  | some m => (if m = "" then false else true) && startsWithL "image/".data m.data

/-- `handle_document` (bot.py:221-237): warn and return on a non-image
document (the vision pipeline, hence its outcome `r`, is never
touched); otherwise delegate to `process_image`. -/
def handle_document (mime : Option String) (r : Except VisionFailure String) : List BotAction :=
  if mimeIsImage mime then process_image r
  else [BotAction.sendMessage "⚠️ Пожалуйста, отправьте изображение (JPEG, PNG, WebP, GIF)."]

/-- The failing refresh responses enumerated by the spec: an HTTP error
status, an HTML content type, an empty (whitespace-only) body, a body
`json.loads` rejects, or a JSON body whose `status` field is not
`"success"`. -/
def failingResp (parse : String → Option JVal) (res : HttpResult) : Prop :=
  (∃ code body, res = HttpResult.httpError code body)
  ∨ (∃ ct raw, res = HttpResult.ok ct raw ∧ hasSubL "text/html".data ct.data = true)
  ∨ (∃ ct raw, res = HttpResult.ok ct raw ∧ raw.data.all (fun c => c.isWhitespace) = true)
  ∨ (∃ ct raw, res = HttpResult.ok ct raw ∧ parse raw = none)
  ∨ (∃ ct raw body, res = HttpResult.ok ct raw ∧ parse raw = some (JVal.obj body)
      ∧ jget body "status" ≠ some (JVal.str "success"))

/-! ### Helper lemmas -/

theorem refresh_token_ok_inv (parse : String → Option JVal) (res : HttpResult)
    (body : List (String × JVal)) (h : refresh_token parse res = Except.ok body) :
    ∃ ct raw, res = HttpResult.ok ct raw
      ∧ hasSubL "text/html".data ct.data = false
      ∧ raw.data.all (fun c => c.isWhitespace) = false
      ∧ parse raw = some (JVal.obj body)
      ∧ jget body "status" = some (JVal.str "success") := by
  cases res with
  | httpError code b => simp [refresh_token] at h
  | urlError reason => simp [refresh_token] at h
  | ok ct raw =>
    refine ⟨ct, raw, rfl, ?_⟩
    revert h
    simp only [refresh_token]
    split_ifs with hh hw
    · intro h; simp at h
    · intro h; simp at h
    · cases hp : parse raw with
      | none => intro h; simp at h
      | some v =>
        cases v with
        | null => intro h; simp at h
        | str s => intro h; simp at h
        | num n => intro h; simp at h
        | obj b2 =>
          cases hst : jget b2 "status" with
          | none => intro h; simp [hst] at h
          | some w =>
            cases w with
            | null => intro h; simp [hst] at h
            | num n => intro h; simp [hst] at h
            | obj o => intro h; simp [hst] at h
            | str s =>
              intro h
              simp only [hst] at h
              by_cases hs : s = "success"
              · rw [if_pos hs] at h
                injection h with hb
                subst hb
                subst hs
                simp only [Bool.not_eq_true] at hh hw
                exact ⟨hh, hw, by simp [hp], hst⟩
              · rw [if_neg hs] at h
                simp at h

theorem refresh_token_ne_ok (parse : String → Option JVal) (res : HttpResult)
    (hfail : failingResp parse res) (body : List (String × JVal)) :
    refresh_token parse res ≠ Except.ok body := by
  intro hok
  obtain ⟨ct, raw, hres, hh, hw, hp, hst⟩ := refresh_token_ok_inv parse res body hok
  rcases hfail with ⟨code, b, heq⟩ | ⟨ct2, raw2, heq, hc⟩ | ⟨ct2, raw2, heq, hc⟩
    | ⟨ct2, raw2, heq, hc⟩ | ⟨ct2, raw2, body2, heq, hc, hcst⟩
  · rw [heq] at hres
    exact HttpResult.noConfusion hres
  · rw [heq] at hres
    injection hres with h1 h2
    subst h1
    rw [hc] at hh
    exact Bool.noConfusion hh
  · rw [heq] at hres
    injection hres with h1 h2
    subst h2
    rw [hc] at hw
    exact Bool.noConfusion hw
  · rw [heq] at hres
    injection hres with h1 h2
    subst h2
    rw [hc] at hp
    exact Option.noConfusion hp
  · rw [heq] at hres
    injection hres with h1 h2
    subst h2
    rw [hc] at hp
    injection hp with h3
    injection h3 with h4
    subst h4
    exact hcst hst

theorem refreshExchange_okWrite_keys (store : FileState) (parse : String → Option JVal)
    (res : HttpResult) (now2 : Int)
    (h : (refreshExchange store parse res now2).1 = MainResult.okWrite) :
    ((refreshExchange store parse res now2).2).contents.map Prod.fst
      = ["access_token", "token_type", "refresh_token", "resource_url", "expiry_date"] := by
  revert h
  unfold refreshExchange
  cases hres : refresh_token parse res with
  | error e => intro h; simp at h
  | ok result =>
    cases ha : jget result "access_token" with
    | none => intro h; simp [ha] at h
    | some a =>
      cases hr : jget result "refresh_token" with
      | none => intro h; simp [ha, hr] at h
      | some r =>
        cases hei : jget result "expires_in" with
        | none => intro h; simp [ha, hr, hei] at h
        | some v =>
          cases v with
          | null => intro h; simp [ha, hr, hei] at h
          | str s => intro h; simp [ha, hr, hei] at h
          | obj o => intro h; simp [ha, hr, hei] at h
          | num n => intro h; simp [ha, hr, hei, save_creds]

/-! ### Claims about refresh_qwen_token.py -/

/-- C1: for every refresher invocation that reaches the refresh
exchange (stale token, refresh token present) and every failing refresh
response — HTTP error status, HTML content type, empty body, malformed
JSON, or a JSON body whose `status` is not `"success"` — the process
exits non-zero and the store is left unmodified; and in every
invocation whatsoever, the store is rewritten only when `refresh_token`
has returned a body validated as `status = "success"`. -/
theorem c1_failing_refresh_no_write (store : FileState) (parse : String → Option JVal)
    (res : HttpResult) (now1 now2 : Int) :
    (failingResp parse res →
      token_needs_refresh store.contents now1 = some true →
      truthy (jget store.contents "refresh_token") = true →
      main store parse res now1 now2 = (MainResult.exitFail, store))
    ∧ ((main store parse res now1 now2).1 = MainResult.okWrite →
      ∃ body, refresh_token parse res = Except.ok body
        ∧ jget body "status" = some (JVal.str "success")) := by
  constructor
  · intro hfail hneed hrt
    cases hres : refresh_token parse res with
    | ok b => exact absurd hres (refresh_token_ne_ok parse res hfail b)
    | error e => simp [main, hneed, hrt, refreshExchange, hres]
  · intro hwr
    unfold main at hwr
    cases hneed : token_needs_refresh store.contents now1 with
    | none => rw [hneed] at hwr; simp at hwr
    | some b =>
      rw [hneed] at hwr
      cases b with
      | false => simp at hwr
      | true =>
        by_cases hrt : truthy (jget store.contents "refresh_token") = true
        · rw [if_pos hrt] at hwr
          cases hres : refresh_token parse res with
          | error e =>
            unfold refreshExchange at hwr
            rw [hres] at hwr
            simp at hwr
          | ok body =>
            refine ⟨body, rfl, ?_⟩
            obtain ⟨ct, raw, _, _, _, _, hst⟩ := refresh_token_ok_inv parse res body hres
            exact hst
        · rw [if_neg hrt] at hwr
          simp at hwr

/-- C1 witness: an HTTP 401 refresh response leaves a stale store
unmodified and the process exits non-zero. -/
theorem c1_failing_refresh_no_write_witness :
    main ⟨[("refresh_token", JVal.str "r")], 384⟩ (fun _ => none)
        (HttpResult.httpError 401 "denied") 0 0
      = (MainResult.exitFail, ⟨[("refresh_token", JVal.str "r")], 384⟩) :=
  (c1_failing_refresh_no_write ⟨[("refresh_token", JVal.str "r")], 384⟩ (fun _ => none)
      (HttpResult.httpError 401 "denied") 0 0).1
    (Or.inl ⟨401, "denied", rfl⟩) rfl rfl

/-- C3: a credential whose numeric `expiry_date` leaves strictly more
than 7200000 ms of validity makes the invocation exit successfully with
no write and no dependence on any HTTP exchange (none is performed);
with remaining validity at most 7200000 ms, `token_needs_refresh`
reports the token stale, so the invocation proceeds toward the refresh
exchange.  `0 ≤ now1` states that the clock reading is a real epoch
timestamp. -/
theorem c3_fresh_token_no_write (store : FileState) (e now1 now2 now2b : Int)
    (parse parse2 : String → Option JVal) (res res2 : HttpResult)
    (hj : jget store.contents "expiry_date" = some (JVal.num e))
    (hnow : 0 ≤ now1) :
    (7200000 < e - now1 →
      main store parse res now1 now2 = (MainResult.okNoWrite, store)
      ∧ main store parse res now1 now2 = main store parse2 res2 now1 now2b)
    ∧ (e - now1 ≤ 7200000 → token_needs_refresh store.contents now1 = some true) := by
  constructor
  · intro h
    have he : ¬ (e = 0) := by omega
    have hneed : token_needs_refresh store.contents now1 = some false := by
      simp only [token_needs_refresh]
      rw [hj]
      simp only [truthy, if_neg he]
      rw [if_neg (by simp)]
      rw [decide_eq_false (by omega)]
    constructor
    · simp [main, hneed]
    · simp [main, hneed]
  · intro h
    simp only [token_needs_refresh]
    rw [hj]
    by_cases he : e = 0
    · simp [truthy, he]
    · simp only [truthy, if_neg he]
      rw [if_neg (by simp)]
      rw [decide_eq_true h]

/-- C3 witness: a far-future expiry gives a successful no-write exit,
and a near expiry reports the token stale. -/
theorem c3_fresh_token_no_write_witness :
    main ⟨[("expiry_date", JVal.num 10000000)], 384⟩ (fun _ => none)
        (HttpResult.httpError 500 "boom") 0 0
      = (MainResult.okNoWrite, ⟨[("expiry_date", JVal.num 10000000)], 384⟩)
    ∧ token_needs_refresh [("expiry_date", JVal.num 7000000)] 0 = some true :=
  ⟨((c3_fresh_token_no_write ⟨[("expiry_date", JVal.num 10000000)], 384⟩ 10000000 0 0 0
      (fun _ => none) (fun _ => none) (HttpResult.httpError 500 "boom")
      (HttpResult.httpError 500 "boom") rfl (by decide)).1 (by decide)).1,
   (c3_fresh_token_no_write ⟨[("expiry_date", JVal.num 7000000)], 384⟩ 7000000 0 0 0
      (fun _ => none) (fun _ => none) (HttpResult.httpError 500 "boom")
      (HttpResult.httpError 500 "boom") rfl (by decide)).2 (by decide)⟩

/-- C4: a validated success response makes the refresher write a
credential whose `access_token` and `refresh_token` come from the
response, whose `token_type` and `resource_url` default to `"Bearer"`
and `"portal.qwen.ai"` when absent from the response, and whose
`expiry_date` is `now2 + expires_in * 1000` (milliseconds, `now2` the
clock reading at construction time); the written file's permission bits
are `0o600`. -/
theorem c4_success_write (store : FileState) (parse : String → Option JVal)
    (res : HttpResult) (now1 now2 : Int) (body : List (String × JVal))
    (a r : JVal) (expires_in : Int)
    (hneed : token_needs_refresh store.contents now1 = some true)
    (hrt : truthy (jget store.contents "refresh_token") = true)
    (hok : refresh_token parse res = Except.ok body)
    (ha : jget body "access_token" = some a)
    (hr : jget body "refresh_token" = some r)
    (hei : jget body "expires_in" = some (JVal.num expires_in)) :
    main store parse res now1 now2 =
      (MainResult.okWrite,
       { contents := [("access_token", a),
          ("token_type", (jget body "token_type").getD (JVal.str "Bearer")),
          ("refresh_token", r),
          ("resource_url", (jget body "resource_url").getD (JVal.str "portal.qwen.ai")),
          ("expiry_date", JVal.num (now2 + expires_in * 1000))],
         mode := 0o600 }) := by
  simp [main, hneed, hrt, refreshExchange, hok, ha, hr, hei, save_creds]

/-- C4 witness: a concrete success response without `token_type` and
`resource_url` is written with both defaults, the response tokens, the
converted expiry and mode `0o600`. -/
theorem c4_success_write_witness :
    main ⟨[("refresh_token", JVal.str "old")], 384⟩
        (fun _ => some (JVal.obj [("status", JVal.str "success"),
          ("access_token", JVal.str "A"), ("refresh_token", JVal.str "R"),
          ("expires_in", JVal.num 3600)]))
        (HttpResult.ok "application/json" "body") 0 5
      = (MainResult.okWrite,
         { contents := [("access_token", JVal.str "A"),
            ("token_type", JVal.str "Bearer"),
            ("refresh_token", JVal.str "R"),
            ("resource_url", JVal.str "portal.qwen.ai"),
            ("expiry_date", JVal.num 3600005)],
           mode := 384 }) :=
  c4_success_write ⟨[("refresh_token", JVal.str "old")], 384⟩
    (fun _ => some (JVal.obj [("status", JVal.str "success"),
      ("access_token", JVal.str "A"), ("refresh_token", JVal.str "R"),
      ("expires_in", JVal.num 3600)]))
    (HttpResult.ok "application/json" "body") 0 5
    [("status", JVal.str "success"), ("access_token", JVal.str "A"),
     ("refresh_token", JVal.str "R"), ("expires_in", JVal.num 3600)]
    (JVal.str "A") (JVal.str "R") 3600
    rfl rfl rfl rfl rfl rfl

/-- C7 counterexample: the claim quantifies over every response whose
content type is not JSON, but `refresh_qwen_token.py:107` tests only
whether the content type contains `text/html`.  For the non-JSON
content type `text/plain` the WAF branch is skipped and the body IS
parsed as JSON — the outcome depends on the parser: a parser that
accepts the body yields success, one that rejects it yields the
JSON-error exit, and with a validated success body the invocation even
ends in a write instead of a non-zero exit. -/
theorem c7_counterexample :
    refresh_token (fun _ => some (JVal.obj [("status", JVal.str "success"),
        ("access_token", JVal.str "A"), ("refresh_token", JVal.str "R"),
        ("expires_in", JVal.num 3600)]))
      (HttpResult.ok "text/plain" "body")
      = Except.ok [("status", JVal.str "success"), ("access_token", JVal.str "A"),
          ("refresh_token", JVal.str "R"), ("expires_in", JVal.num 3600)]
    ∧ refresh_token (fun _ => none) (HttpResult.ok "text/plain" "body")
      = Except.error RefreshError.badJson
    ∧ (main ⟨[("refresh_token", JVal.str "old")], 384⟩
        (fun _ => some (JVal.obj [("status", JVal.str "success"),
          ("access_token", JVal.str "A"), ("refresh_token", JVal.str "R"),
          ("expires_in", JVal.num 3600)]))
        (HttpResult.ok "text/plain" "body") 0 5).1
      = MainResult.okWrite :=
  ⟨rfl, rfl, rfl⟩

/-- C7 amended: a refresh response whose content type contains
`text/html` (such as an HTML challenge page) makes `refresh_token` fail
with the WAF error — independently of the JSON parser, i.e. without
attempting to parse the body — logging the WAF-blockage hint, and the
invocation exits non-zero; other non-JSON content types fall through to
the JSON parse. -/
theorem c7_html_waf (parse parse2 : String → Option JVal) (content_type raw : String)
    (store : FileState) (now1 now2 : Int)
    (h : hasSubL "text/html".data content_type.data = true) :
    refresh_token parse (HttpResult.ok content_type raw) = Except.error RefreshError.wafHtml
    ∧ refresh_token parse (HttpResult.ok content_type raw)
        = refresh_token parse2 (HttpResult.ok content_type raw)
    ∧ refreshLogHint RefreshError.wafHtml
        = some "ОШИБКА: API вернул HTML вместо JSON (вероятно WAF-блокировка)"
    ∧ (token_needs_refresh store.contents now1 = some true →
       truthy (jget store.contents "refresh_token") = true →
       main store parse (HttpResult.ok content_type raw) now1 now2
         = (MainResult.exitFail, store)) := by
  have hwaf : refresh_token parse (HttpResult.ok content_type raw)
      = Except.error RefreshError.wafHtml := by
    simp only [refresh_token]
    rw [if_pos h]
  have hwaf2 : refresh_token parse2 (HttpResult.ok content_type raw)
      = Except.error RefreshError.wafHtml := by
    simp only [refresh_token]
    rw [if_pos h]
  refine ⟨hwaf, by rw [hwaf, hwaf2], rfl, ?_⟩
  intro hneed hrt
  simp [main, hneed, hrt, refreshExchange, hwaf]

/-- C7 witness: an HTML challenge page aborts a stale-token invocation
with a non-zero exit and no write. -/
theorem c7_html_waf_witness :
    main ⟨[("refresh_token", JVal.str "r")], 384⟩ (fun _ => none)
        (HttpResult.ok "text/html; charset=utf-8" "<html></html>") 0 0
      = (MainResult.exitFail, ⟨[("refresh_token", JVal.str "r")], 384⟩) :=
  (c7_html_waf (fun _ => none) (fun _ => none) "text/html; charset=utf-8" "<html></html>"
    ⟨[("refresh_token", JVal.str "r")], 384⟩ 0 0 (by decide)).2.2.2 rfl rfl

/-- C9: a credential whose `expiry_date` is absent or falsy (such as 0)
makes `token_needs_refresh` report the token stale, and the invocation
(with a refresh token present) proceeds to the refresh exchange rather
than failing or exiting successfully without one. -/
theorem c9_falsy_expiry_refreshes (store : FileState) (now1 now2 : Int)
    (parse : String → Option JVal) (res : HttpResult)
    (h : truthy (jget store.contents "expiry_date") = false) :
    token_needs_refresh store.contents now1 = some true
    ∧ (truthy (jget store.contents "refresh_token") = true →
       main store parse res now1 now2 = refreshExchange store parse res now2) := by
  have hneed : token_needs_refresh store.contents now1 = some true := by
    simp only [token_needs_refresh]
    rw [if_pos h]
  refine ⟨hneed, ?_⟩
  intro hrt
  simp [main, hneed, hrt]

/-- C9 witness: `expiry_date = 0` is treated as stale and the invocation
reaches the refresh exchange. -/
theorem c9_falsy_expiry_refreshes_witness :
    token_needs_refresh [("expiry_date", JVal.num 0), ("refresh_token", JVal.str "r")] 12345
      = some true
    ∧ main ⟨[("expiry_date", JVal.num 0), ("refresh_token", JVal.str "r")], 384⟩
        (fun _ => none) (HttpResult.httpError 500 "e") 12345 12346
      = refreshExchange ⟨[("expiry_date", JVal.num 0), ("refresh_token", JVal.str "r")], 384⟩
        (fun _ => none) (HttpResult.httpError 500 "e") 12346 :=
  ⟨(c9_falsy_expiry_refreshes ⟨[("expiry_date", JVal.num 0), ("refresh_token", JVal.str "r")], 384⟩
      12345 12346 (fun _ => none) (HttpResult.httpError 500 "e") rfl).1,
   (c9_falsy_expiry_refreshes ⟨[("expiry_date", JVal.num 0), ("refresh_token", JVal.str "r")], 384⟩
      12345 12346 (fun _ => none) (HttpResult.httpError 500 "e") rfl).2 rfl⟩

/-- C10: whenever an invocation ends in a successful write, the store
then holds exactly the five keys `access_token`, `token_type`,
`refresh_token`, `resource_url`, `expiry_date`, in that order — any
other key of the previous store contents or of the response is
discarded. -/
theorem c10_store_keys (store : FileState) (parse : String → Option JVal)
    (res : HttpResult) (now1 now2 : Int)
    (h : (main store parse res now1 now2).1 = MainResult.okWrite) :
    ((main store parse res now1 now2).2).contents.map Prod.fst
      = ["access_token", "token_type", "refresh_token", "resource_url", "expiry_date"] := by
  revert h
  unfold main
  cases hneed : token_needs_refresh store.contents now1 with
  | none => intro h; simp at h
  | some b =>
    cases b with
    | false => intro h; simp at h
    | true =>
      by_cases hrt : truthy (jget store.contents "refresh_token") = true
      · rw [if_pos hrt]
        exact refreshExchange_okWrite_keys store parse res now2
      · rw [if_neg hrt]
        intro h
        simp at h

/-- C10 witness: a successful refresh of a store that held an extra
`scope` key, from a response that also carries `scope`, keeps exactly
the five keys. -/
theorem c10_store_keys_witness :
    ((main ⟨[("refresh_token", JVal.str "old"), ("scope", JVal.str "s")], 384⟩
        (fun _ => some (JVal.obj [("status", JVal.str "success"),
          ("access_token", JVal.str "A"), ("refresh_token", JVal.str "R"),
          ("expires_in", JVal.num 3600), ("scope", JVal.str "s2")]))
        (HttpResult.ok "application/json" "body") 0 5).2).contents.map Prod.fst
      = ["access_token", "token_type", "refresh_token", "resource_url", "expiry_date"] :=
  c10_store_keys ⟨[("refresh_token", JVal.str "old"), ("scope", JVal.str "s")], 384⟩
    (fun _ => some (JVal.obj [("status", JVal.str "success"),
      ("access_token", JVal.str "A"), ("refresh_token", JVal.str "R"),
      ("expires_in", JVal.num 3600), ("scope", JVal.str "s2")]))
    (HttpResult.ok "application/json" "body") 0 5 (by decide)

theorem data_append (a b : String) : (a ++ b).data = a.data ++ b.data := by
  cases a; cases b; rfl

theorem pychunks_flatten_aux : ∀ (n : Nat) (l : List Char), l.length ≤ n →
    (pychunks l).flatten = l := by
  intro n
  induction n with
  | zero =>
    intro l h
    cases l with
    | nil => rw [pychunks]; rfl
    | cons c t => simp at h
  | succ n ih =>
    intro l h
    cases l with
    | nil => rw [pychunks]; rfl
    | cons c t =>
      rw [pychunks]
      rw [List.flatten_cons]
      rw [ih ((c :: t).drop 4000) (by simp only [List.length_drop, List.length_cons] at h ⊢; omega)]
      exact List.take_append_drop 4000 (c :: t)

theorem pychunks_flatten (l : List Char) : (pychunks l).flatten = l :=
  pychunks_flatten_aux l.length l (Nat.le_refl _)

theorem pychunks_len_aux : ∀ (n : Nat) (l : List Char), l.length ≤ n →
    ∀ ch ∈ pychunks l, ch.length ≤ 4000 := by
  intro n
  induction n with
  | zero =>
    intro l h ch hch
    cases l with
    | nil => rw [pychunks] at hch; simp at hch
    | cons c t => simp at h
  | succ n ih =>
    intro n2 h ch hch
    cases n2 with
    | nil => rw [pychunks] at hch; simp at hch
    | cons c t =>
      rw [pychunks] at hch
      cases hch with
      | head => simp [List.length_take]
      | tail _ htail =>
        exact ih ((c :: t).drop 4000)
          (by simp only [List.length_drop, List.length_cons] at h ⊢; omega) ch htail

theorem pychunks_len (l : List Char) : ∀ ch ∈ pychunks l, ch.length ≤ 4000 :=
  pychunks_len_aux l.length l (Nat.le_refl _)

theorem generic_msg_ne (c : Nat) (msg : String) (i : Nat)
    (hi : i < ("❌ Ошибка сервера (код " : String).data.length)
    (hne : ("❌ Ошибка сервера (код " : String).data[i]? ≠ msg.data[i]?) :
    "❌ Ошибка сервера (код " ++ toString c ++ "). Попробуйте позже." ≠ msg := by
  intro h
  apply hne
  have h2 := congrArg (fun s => s.data[i]?) h
  simp only [data_append] at h2
  rw [List.append_assoc] at h2
  rw [List.getElem?_append_left hi] at h2
  exact h2

theorem httpErrorMsg_ne_parse (c : Nat) :
    httpErrorMsg c ≠ "❌ Не удалось обработать ответ от сервера. Попробуйте ещё раз." := by
  unfold httpErrorMsg
  split_ifs
  · decide
  · decide
  · decide
  · exact generic_msg_ne c _ 2 (by decide) (by decide)

theorem httpErrorMsg_ne_timeout (c : Nat) :
    httpErrorMsg c ≠ "⏱ Превышено время ожидания ответа от сервера. Попробуйте ещё раз позже." := by
  unfold httpErrorMsg
  split_ifs
  · decide
  · decide
  · decide
  · exact generic_msg_ne c _ 0 (by decide) (by decide)

theorem httpErrorMsg_ne_other (c : Nat) :
    httpErrorMsg c ≠ "❌ Произошла непредвиденная ошибка. Попробуйте позже." := by
  unfold httpErrorMsg
  split_ifs
  · decide
  · decide
  · decide
  · exact generic_msg_ne c _ 2 (by decide) (by decide)

/-! ### Claims about bot.py -/

/-- C2: for every recognized `result_text`, if the formatted reply
(fixed header plus `result_text`) has length at most 4096 then
`process_image` edits the placeholder once with the full reply;
otherwise it edits the placeholder to a short notice and sends
`result_text` as consecutive chunks of at most 4000 characters each, in
order, whose concatenation is exactly `result_text`. -/
theorem c2_reply_chunking (result_text : String) :
    (("📝 *Текст:*\n\n" ++ result_text).length ≤ 4096 →
      process_image (Except.ok result_text) =
        [BotAction.sendMessage "⏳ Обрабатываю...",
         BotAction.editMessage ("📝 *Текст:*\n\n" ++ result_text)])
    ∧ (4096 < ("📝 *Текст:*\n\n" ++ result_text).length →
      process_image (Except.ok result_text) =
        BotAction.sendMessage "⏳ Обрабатываю..." ::
        BotAction.editMessage "📝 *Текст (разбит на части из-за длины):*" ::
        (pychunks result_text.data).map (fun chunk => BotAction.sendMessage (String.mk chunk))
      ∧ (∀ chunk ∈ pychunks result_text.data, chunk.length ≤ 4000)
      ∧ (pychunks result_text.data).flatten = result_text.data) := by
  constructor
  · intro h
    simp only [process_image]
    rw [if_pos h]
  · intro h
    refine ⟨?_, pychunks_len result_text.data, pychunks_flatten result_text.data⟩
    simp only [process_image]
    rw [if_neg (by omega)]

/-- C2 witness: a short text is edited in as one message, and the chunks
of a 4096-character text concatenate back to the text. -/
theorem c2_reply_chunking_witness :
    process_image (Except.ok "abc") =
      [BotAction.sendMessage "⏳ Обрабатываю...",
       BotAction.editMessage ("📝 *Текст:*\n\n" ++ "abc")]
    ∧ (pychunks (String.mk (List.replicate 4096 'a')).data).flatten
        = (String.mk (List.replicate 4096 'a')).data :=
  ⟨(c2_reply_chunking "abc").1 (by decide),
   ((c2_reply_chunking (String.mk (List.replicate 4096 'a'))).2 (by
      have h : (String.mk (List.replicate 4096 'a')).length = 4096 := by
        show (List.replicate 4096 'a').length = 4096
        rw [List.length_replicate]
      rw [String.length_append, h]
      decide)).2.2⟩

/-- C5: `_process_image` maps an HTTP status error to the documented
user message: 401 to the authorization error, 429 to the rate limit,
any status at least 500 to the server-unavailable message, and every
other status to the generic message embedding the code; in particular
401, 429, 500, 503, 418 fall into the auth, rate-limit,
server-unavailable (both 500 and 503) and generic categories. -/
theorem c5_http_status_messages (status_code : Nat) :
    process_image (Except.error (VisionFailure.httpStatus status_code)) =
      [BotAction.sendMessage "⏳ Обрабатываю...",
       BotAction.editMessage (httpErrorMsg status_code)]
    ∧ httpErrorMsg 401 = "🔑 Ошибка авторизации. Проверьте токен API."
    ∧ httpErrorMsg 429 = "🚦 Превышен лимит запросов. Попробуйте позже."
    ∧ (500 ≤ status_code →
        httpErrorMsg status_code = "🔧 Сервер временно недоступен. Попробуйте позже.")
    ∧ (status_code ≠ 401 → status_code ≠ 429 → status_code < 500 →
        httpErrorMsg status_code =
          "❌ Ошибка сервера (код " ++ toString status_code ++ "). Попробуйте позже.")
    ∧ httpErrorMsg 500 = "🔧 Сервер временно недоступен. Попробуйте позже."
    ∧ httpErrorMsg 503 = "🔧 Сервер временно недоступен. Попробуйте позже."
    ∧ httpErrorMsg 418 = "❌ Ошибка сервера (код 418). Попробуйте позже." := by
  refine ⟨rfl, by decide, by decide, ?_, ?_, by decide, by decide, by decide⟩
  · intro h
    unfold httpErrorMsg
    rw [if_neg (by omega), if_neg (by omega), if_pos h]
  · intro h1 h2 h3
    unfold httpErrorMsg
    rw [if_neg h1, if_neg h2, if_neg (by omega)]

/-- C5 witness: the server-unavailable and generic branches at concrete
statuses. -/
theorem c5_http_status_messages_witness :
    httpErrorMsg 503 = "🔧 Сервер временно недоступен. Попробуйте позже."
    ∧ httpErrorMsg 404 = "❌ Ошибка сервера (код " ++ toString 404 ++ "). Попробуйте позже." :=
  ⟨(c5_http_status_messages 503).2.2.2.1 (by decide),
   (c5_http_status_messages 404).2.2.2.2.1 (by decide) (by decide) (by decide)⟩

/-- C6: `handle_document` warns and stops (independently of anything the
vision pipeline would do, so no download and no vision request) on a
document whose MIME type is absent or does not start with `image/`, and
delegates to `process_image` on an image MIME type. -/
theorem c6_mime_gate (mime : Option String) (r r2 : Except VisionFailure String) :
    ((mime = none ∨ ∃ m, mime = some m ∧ startsWithL "image/".data m.data = false) →
      handle_document mime r =
        [BotAction.sendMessage "⚠️ Пожалуйста, отправьте изображение (JPEG, PNG, WebP, GIF)."]
      ∧ handle_document mime r = handle_document mime r2)
    ∧ (∀ m, mime = some m → startsWithL "image/".data m.data = true →
      handle_document mime r = process_image r) := by
  constructor
  · intro h
    have hfalse : mimeIsImage mime = false := by
      rcases h with hnone | ⟨m, hm, hsw⟩
      · rw [hnone]; rfl
      · rw [hm]
        simp [mimeIsImage, hsw]
    constructor
    · simp [handle_document, hfalse]
    · simp [handle_document, hfalse]
  · intro m hm hsw
    have hne : m ≠ "" := by
      intro he
      rw [he] at hsw
      exact absurd hsw (by decide)
    rw [hm]
    simp [handle_document, mimeIsImage, hne, hsw]

/-- C6 witness: a text document is warned about, an image document is
processed. -/
theorem c6_mime_gate_witness :
    handle_document (some "text/plain") (Except.ok "x") =
      [BotAction.sendMessage "⚠️ Пожалуйста, отправьте изображение (JPEG, PNG, WebP, GIF)."]
    ∧ handle_document (some "image/png") (Except.ok "x") = process_image (Except.ok "x") :=
  ⟨((c6_mime_gate (some "text/plain") (Except.ok "x") (Except.ok "x")).1
      (Or.inr ⟨"text/plain", rfl, by decide⟩)).1,
   (c6_mime_gate (some "image/png") (Except.ok "x") (Except.ok "x")).2
      "image/png" rfl (by decide)⟩

/-- C8 counterexample: the claim says the "could not process server
response" message is produced exactly for response-shape parse failures
and for no other failure class, but a credential error — the empty
`access_token` raising `ValueError` in `get_qwen_token` (bot.py:96),
caught by `except ValueError` (bot.py:305) — produces exactly the same
message and the same action trace as a response-shape parse failure. -/
theorem c8_counterexample :
    process_image (Except.error VisionFailure.credEmpty)
      = process_image (Except.error VisionFailure.shapeError)
    ∧ process_image (Except.error VisionFailure.credEmpty)
      = [BotAction.sendMessage "⏳ Обрабатываю...",
         BotAction.editMessage "❌ Не удалось обработать ответ от сервера. Попробуйте ещё раз."] :=
  ⟨rfl, rfl⟩

/-- C8 amended: the "could not process server response" message is
produced exactly for the failures that raise a `ValueError` — the
response-shape parse failure, the empty `access_token` credential
error, and a malformed credential file (whose `json.JSONDecodeError`
subclasses `ValueError`); the timeout, HTTP status and unclassified
error classes each produce their own message, distinct from it and from
each other. -/
theorem c8_amended_message_classes (f : VisionFailure) (c : Nat) :
    (classifyExc (raisedExc f)
        = "❌ Не удалось обработать ответ от сервера. Попробуйте ещё раз."
      ↔ (f = VisionFailure.shapeError ∨ f = VisionFailure.credEmpty
          ∨ f = VisionFailure.credBadJson))
    ∧ classifyExc PyExc.timeoutException ≠ classifyExc PyExc.valueError
    ∧ classifyExc PyExc.otherExc ≠ classifyExc PyExc.valueError
    ∧ classifyExc PyExc.timeoutException ≠ classifyExc PyExc.otherExc
    ∧ classifyExc (PyExc.httpStatusError c) ≠ classifyExc PyExc.valueError
    ∧ classifyExc (PyExc.httpStatusError c) ≠ classifyExc PyExc.timeoutException
    ∧ classifyExc (PyExc.httpStatusError c) ≠ classifyExc PyExc.otherExc := by
  refine ⟨?_, by decide, by decide, by decide,
    httpErrorMsg_ne_parse c, httpErrorMsg_ne_timeout c, httpErrorMsg_ne_other c⟩
  cases f with
  | credMissing => simp [raisedExc, classifyExc]
  | credBadJson => simp [raisedExc, classifyExc]
  | credEmpty => simp [raisedExc, classifyExc]
  | httpTimeout => simp [raisedExc, classifyExc]
  | netError => simp [raisedExc, classifyExc]
  | httpStatus k =>
    simp only [raisedExc, classifyExc]
    constructor
    · intro h
      exact absurd h (httpErrorMsg_ne_parse k)
    · intro h
      rcases h with h | h | h <;> exact absurd h (by simp)
  | shapeError => simp [raisedExc, classifyExc]

/-- C8 amended witness: the parse-failure message is produced for the
empty-token credential error. -/
theorem c8_amended_message_classes_witness :
    classifyExc (raisedExc VisionFailure.credEmpty)
      = "❌ Не удалось обработать ответ от сервера. Попробуйте ещё раз." :=
  (c8_amended_message_classes VisionFailure.credEmpty 0).1.mpr (Or.inr (Or.inl rfl))

end E13
